import Mathlib

/-!
Shallow embedding of `src/pyarr/sonarr_api.py` (class `SonarrAPI`).

Python `dict`s that travel as JSON are modelled by `JVal`, with objects as
insertion-ordered association lists (`dictSet` replaces in place or appends,
matching CPython dict assignment).  Python exceptions raised by the code are
modelled by `PyErr`; the spec's local error taxonomy (`NotFoundError`,
`ValidationError`) is included as constructors so that claims naming those
errors can be stated, but the source never raises them.  Each endpoint method
is embedded as a function producing the outbound `Request` it issues (or an
`Except` error when the method can fail before issuing the request); methods
whose behaviour depends on a server response take that response as an
argument and, where they issue several calls, return the list of issued
requests.
-/

/-- Python exception classes observable from `sonarr_api.py`, plus the two
error names used by the spec's local taxonomy (never raised by the code). -/
inductive PyErr where
  | IndexError
  | KeyError (k : String)
  | ValueError
  | TypeError
  | AttributeError
  | NotFoundError
  | ValidationError
  deriving DecidableEq, Repr

/-- JSON-ish values: the payloads and parameter values the client assembles.
Objects are insertion-ordered association lists, as CPython dicts are. -/
inductive JVal where
  | null
  | bool (b : Bool)
  | num (n : Int)
  | str (s : String)
  | arr (xs : List JVal)
  | obj (fs : List (String × JVal))

/-- Embeds `d[k]`-style lookup in an association list (first binding wins, as in a
dict where keys are unique). -/
def dictGet (fs : List (String × JVal)) (k : String) : Option JVal :=
  match fs with
  | [] => none
  | (k', v) :: rest => if k' = k then some v else dictGet rest k

/-- Embeds `d[k] = v`: replace the value at `k` in place if present, else append,
matching CPython dict assignment (insertion order preserved). -/
def dictSet (fs : List (String × JVal)) (k : String) (v : JVal) :
    List (String × JVal) :=
  match fs with
  | [] => [(k, v)]
  | (k', v') :: rest =>
    if k' = k then (k', v) :: rest else (k', v') :: dictSet rest k v

/-- Python truthiness of a JSON value: `None`, `False`, `0`, `""`, `[]`, `{}`
are falsy, everything else truthy. -/
def truthyJ : JVal → Bool
  | .null => false
  | .bool b => b
  | .num n => decide (n ≠ 0)
  | .str s => decide (s ≠ "")
  | .arr xs => !xs.isEmpty
  | .obj fs => !fs.isEmpty

/-- Truthiness of an optional string argument (`None` and `""` are falsy). -/
def truthyOptStr : Option String → Bool
  | none => false
  | some s => decide (s ≠ "")

/-- Truthiness of an optional integer argument (`None` and `0` are falsy). -/
def truthyOptInt : Option Int → Bool
  | none => false
  | some n => decide (n ≠ 0)

inductive Method where
  | GET
  | POST
  | PUT
  | DELETE
  deriving DecidableEq, Repr

/-- One outbound HTTP request descriptor handed to the request layer:
verb, path, query parameters, optional JSON body. -/
structure Request where
  method : Method
  path : String
  params : List (String × JVal)
  body : Option JVal

/-- Embeds `lookup_series(term)`: GET /api/series/lookup with `{"term": term}`.
The term is whatever Python value the caller passed (a string from callers,
but `construct_series_json` passes the raw tvdb id). -/
def lookup_series (term : JVal) : Request :=
  { method := .GET, path := "/api/series/lookup",
    params := [("term", term)], body := none }

/-- Embeds `lookup_series_by_tvdb_id(id_)`: GET /api/series/lookup with
`{"term": f"tvdb:\x7bid_\x7d"}`. -/
def lookup_series_by_tvdb_id (id_ : Int) : Request :=
  { method := .GET, path := "/api/series/lookup",
    params := [("term", .str ("tvdb:" ++ toString id_))], body := none }

/-- Embeds `set_command(name, **kwargs)`: POST /api/command with body
`{**kwargs, "name": name}`.  (Python guarantees `"name"` is not a key of
`kwargs`, since `name` is a positional parameter.) -/
def set_command (name : String) (kwargs : List (String × JVal)) : Request :=
  { method := .POST, path := "/api/command",
    params := [], body := some (.obj (dictSet kwargs "name" (.str name))) }

/-- Embeds `get_command(id_=None)`: GET /api/command/{id} when `id_` is truthy,
else GET /api/command. -/
def get_command (id_ : Option Int) : Request :=
  if truthyOptInt id_ then
    { method := .GET, path := "/api/command/" ++ toString (id_.getD 0),
      params := [], body := none }
  else
    { method := .GET, path := "/api/command", params := [], body := none }

/-- Embeds `get_tag(id_=None)`: GET /api/tag when `id_` is falsy (`not id_`),
else GET /api/tag/{id}. -/
def get_tag (id_ : Option Int) : Request :=
  if ¬ truthyOptInt id_ then
    { method := .GET, path := "/api/tag", params := [], body := none }
  else
    { method := .GET, path := "/api/tag/" ++ toString (id_.getD 0),
      params := [], body := none }

/-- Embeds `get_history(sort_key, page=1, page_size=10, sort_dir="desc", id_=None)`:
GET /api/history; `episodeId` is added to the params only when `id_` is
truthy. -/
def get_history (sort_key : String) (page page_size : Int) (sort_dir : String)
    (id_ : Option Int) : Request :=
  let params : List (String × JVal) :=
    [("sortKey", .str sort_key), ("page", .num page),
     ("pageSize", .num page_size), ("sortDir", .str sort_dir)]
  let params :=
    if truthyOptInt id_ then dictSet params "episodeId" (.num (id_.getD 0))
    else params
  { method := .GET, path := "/api/history", params := params, body := none }

/-- Embeds `get_logs(page=1, page_size=10, sort_key="time", sort_dir="desc",
filter_key=None, filter_value="All")`: GET /api/log with all six parameters
always present (`filter_key=None` is transmitted as a `None` value, not
omitted). -/
def get_logs (page page_size : Int) (sort_key sort_dir : String)
    (filter_key : Option String) (filter_value : String) : Request :=
  { method := .GET, path := "/api/log",
    params :=
      [("page", .num page), ("pageSize", .num page_size),
       ("sortKey", .str sort_key), ("sortDir", .str sort_dir),
       ("filterKey", match filter_key with
         | none => .null
         | some s => .str s),
       ("filterValue", .str filter_value)],
    body := none }

/-- Shorthand for `get_logs` applied at its Python default arguments
(`page=1, page_size=10, sort_key="time", sort_dir="desc", filter_key=None,
filter_value="All"`). -/
def get_logs_defaults : Request :=
  get_logs 1 10 "time" "desc" none "All"

/-! ## Dates: `datetime.strptime(s, "%Y-%m-%d")` / `.strftime("%Y-%m-%d")`

CPython's `_strptime` matches `%Y` as exactly four digits, `%m` as one or two
digits with value 1–12, `%d` as one or two digits with value 1–31, and the
literal dashes; the whole input must be consumed.  The resulting
`datetime(year, month, day)` constructor then additionally requires
`1 <= year` (MINYEAR) and `day <= days_in_month(year, month)`; any failure is
a `ValueError`.  `strftime("%Y-%m-%d")` prints the year zero-padded to four
digits and month/day zero-padded to two. -/

/-- Leap year rule used by `datetime` (proleptic Gregorian). -/
def isLeap (y : Nat) : Bool :=
  (y % 4 = 0 && y % 100 != 0) || y % 400 = 0

/-- Number of days in a month, as validated by the `datetime` constructor. -/
def daysInMonth (y m : Nat) : Nat :=
  if m = 2 then (if isLeap y then 29 else 28)
  else if m = 4 || m = 6 || m = 9 || m = 11 then 30
  else 31

/-- A (year, month, day) triple the `datetime` constructor accepts. -/
def validDate (y m d : Nat) : Prop :=
  1 ≤ y ∧ y ≤ 9999 ∧ 1 ≤ m ∧ m ≤ 12 ∧ 1 ≤ d ∧ d ≤ daysInMonth y m

instance (y m d : Nat) : Decidable (validDate y m d) := by
  unfold validDate; infer_instance

def isDigitChar (c : Char) : Bool :=
  decide ('0' ≤ c) && decide (c ≤ '9')

def digitVal (c : Char) : Nat :=
  c.toNat - '0'.toNat

/-- The decimal digit character for `k % 10`. -/
def digitChar10 (k : Nat) : Char :=
  match k % 10 with
  | 0 => '0' | 1 => '1' | 2 => '2' | 3 => '3' | 4 => '4'
  | 5 => '5' | 6 => '6' | 7 => '7' | 8 => '8' | _ => '9'

/-- Numeric value of a digit string (the fields are at most four digits). -/
def natOfDigits (cs : List Char) : Nat :=
  cs.foldl (fun a c => 10 * a + digitVal c) 0

/-- Split a character list at every dash, keeping empty segments, as the
format's literal `-` separators do. -/
def splitDash : List Char → List (List Char)
  | [] => [[]]
  | c :: cs =>
    if c = '-' then [] :: splitDash cs
    else
      match splitDash cs with
      | f :: rest => (c :: f) :: rest
      | [] => [[c]]

/-- Embeds `datetime.strptime(s, "%Y-%m-%d")`, returning `(year, month, day)` on
success and `none` where Python raises `ValueError`.  A field is accepted
exactly when the `_strptime` regex accepts it (four digits for `%Y`; one or
two digits with the right value range for `%m`/`%d`), the dashes are literal,
nothing is left over, and the `datetime` constructor's range checks pass. -/
def parseYMD (s : String) : Option (Nat × Nat × Nat) :=
  match splitDash s.toList with
  | [ys, ms, ds] =>
    if ys.length = 4 && ys.all isDigitChar
        && (ms.length = 1 || ms.length = 2) && ms.all isDigitChar
        && (ds.length = 1 || ds.length = 2) && ds.all isDigitChar then
      let y := natOfDigits ys
      let m := natOfDigits ms
      let d := natOfDigits ds
      if 1 ≤ m && m ≤ 12 && 1 ≤ d && d ≤ 31
          && 1 ≤ y && d ≤ daysInMonth y m then
        some (y, m, d)
      else none
    else none
  | _ => none

/-- Embeds `datetime(y, m, d).strftime("%Y-%m-%d")`: year zero-padded to four
digits, month and day to two (`datetime` guarantees `y ≤ 9999`). -/
def formatYMD (y m d : Nat) : String :=
  String.mk
    ([digitChar10 (y / 1000), digitChar10 (y / 100), digitChar10 (y / 10),
      digitChar10 y] ++
     '-' :: [digitChar10 (m / 10), digitChar10 m] ++
     '-' :: [digitChar10 (d / 10), digitChar10 d])

/-- One arm of `get_calendar`'s parameter assembly: when the given date
string is truthy it is parsed with `%Y-%m-%d` (a parse failure raises
`ValueError`) and the re-formatted date is stored under `k`; a falsy
(absent or empty) date is skipped. -/
def addDateParam (params : List (String × JVal)) (k : String)
    (v : Option String) : Except PyErr (List (String × JVal)) :=
  if truthyOptStr v then
    match parseYMD (v.getD "") with
    | some (y, m, d) => .ok (dictSet params k (.str (formatYMD y m d)))
    | none => .error PyErr.ValueError
  else .ok params

/-- Embeds `get_calendar(start_date=None, end_date=None)`: each given (truthy) date
string is parsed with `%Y-%m-%d` and re-formatted into the params; a parse
failure raises `ValueError` before the GET is issued.  The returned request
is the single GET actually sent; an `error` result means no request was
issued at all. -/
def get_calendar (start_date end_date : Option String) :
    Except PyErr Request :=
  match addDateParam [] "start" start_date with
  | .error e => .error e
  | .ok p1 =>
    match addDateParam p1 "end" end_date with
    | .error e => .error e
    | .ok p2 =>
      .ok { method := .GET, path := "/api/calendar",
            params := p2, body := none }

/-! ## `construct_series_json` / `add_series`

`construct_series_json` performs one lookup and then pure data assembly; it
is embedded as a function of the decoded lookup response.  Python mutates
the first match's season dicts in place, so the embedding returns, next to
the payload, the lookup-result value as it stands after the call. -/

/-- Embeds `season["monitored"] = False` on one season entry (a `TypeError` if the
entry is not a dict). -/
def setSeasonUnmonitored : JVal → Except PyErr JVal
  | .obj fs => .ok (.obj (dictSet fs "monitored" (.bool false)))
  | _ => .error PyErr.TypeError

/-- The `for season in s_dict["seasons"]` loop body applied element by
element, stopping at the first error, as the Python loop does. -/
def mutateList : List JVal → Except PyErr (List JVal)
  | [] => .ok []
  | e :: es =>
    match setSeasonUnmonitored e with
    | .error err => .error err
    | .ok e2 =>
      match mutateList es with
      | .error err => .error err
      | .ok es2 => .ok (e2 :: es2)

/-- Lines 36–38: `if not monitored and s_dict.get("seasons"): for season in
s_dict["seasons"]: season["monitored"] = False`.  Returns the (possibly
mutated) first match.  `not monitored` is evaluated first; `.get` on a
non-dict raises `AttributeError`; iterating/assigning into a non-list value
raises `TypeError`. -/
def mutateSeasons (monitored : Bool) (s0 : JVal) : Except PyErr JVal :=
  if monitored then .ok s0
  else
    match s0 with
    | .obj fs =>
      match dictGet fs "seasons" with
      | none => .ok s0
      | some v =>
        if truthyJ v then
          match v with
          | .arr ss =>
            match mutateList ss with
            | .ok ss2 => .ok (.obj (dictSet fs "seasons" (.arr ss2)))
            | .error e => .error e
          | _ => .error PyErr.TypeError
        else .ok s0
    | _ => .error PyErr.AttributeError

/-- Embeds `v[k]` subscription: `KeyError` when the key is absent, `TypeError` when
`v` is not a dict. -/
def getItem (v : JVal) (k : String) : Except PyErr JVal :=
  match v with
  | .obj fs =>
    match dictGet fs k with
    | some x => .ok x
    | none => .error (PyErr.KeyError k)
  | _ => .error PyErr.TypeError

/-- Embeds `root_dir + title`: `str` concatenation, a `TypeError` when the dict
value is not a string. -/
def pyStrConcat (a : String) (v : JVal) : Except PyErr String :=
  match v with
  | .str t => .ok (a ++ t)
  | _ => .error PyErr.TypeError

/-- Lines 40–55: the payload dict literal, evaluated field by field against
the (possibly mutated) first match; the first failing subscription or
concatenation raises, in source order. -/
def buildPayload (tvdb_id quality_profile_id : Int) (root_dir : String)
    (season_folder monitored ignore_episodes_with_files
      ignore_episodes_without_files search_for_missing_episodes : Bool)
    (s_dict : JVal) : Except PyErr JVal :=
  match getItem s_dict "title" with
  | .error e => .error e
  | .ok titleV =>
    match getItem s_dict "seasons" with
    | .error e => .error e
    | .ok seasonsV =>
      match pyStrConcat root_dir titleV with
      | .error e => .error e
      | .ok pathStr =>
        match getItem s_dict "images" with
        | .error e => .error e
        | .ok imagesV =>
          match getItem s_dict "titleSlug" with
          | .error e => .error e
          | .ok slugV =>
            .ok (JVal.obj
              [("title", titleV),
               ("seasons", seasonsV),
               ("path", .str pathStr),
               ("qualityProfileId", .num quality_profile_id),
               ("seasonFolder", .bool season_folder),
               ("monitored", .bool monitored),
               ("tvdbId", .num tvdb_id),
               ("images", imagesV),
               ("titleSlug", slugV),
               ("addOptions", JVal.obj
                 [("ignoreEpisodesWithFiles",
                    .bool ignore_episodes_with_files),
                  ("ignoreEpisodesWithoutFiles",
                    .bool ignore_episodes_without_files),
                  ("searchForMissingEpisodes",
                    .bool search_for_missing_episodes)])])

/-- Embeds `construct_series_json(tvdb_id, quality_profile_id, root_dir,
season_folder=True, monitored=True, ...)` applied to the decoded response
`lookupRes` of its one lookup call.  `res[0]` on an empty response raises
`IndexError`.  On success the result is the assembled payload together with
the lookup-result value after the call (the first match's season dicts are
mutated in place when `monitored` is false). -/
def construct_series_json (tvdb_id quality_profile_id : Int)
    (root_dir : String)
    (season_folder monitored ignore_episodes_with_files
      ignore_episodes_without_files search_for_missing_episodes : Bool)
    (lookupRes : List JVal) : Except PyErr (JVal × List JVal) :=
  match lookupRes with
  | [] => .error PyErr.IndexError
  | s0 :: rest =>
    match mutateSeasons monitored s0 with
    | .error e => .error e
    | .ok s_dict =>
      match buildPayload tvdb_id quality_profile_id root_dir season_folder
          monitored ignore_episodes_with_files ignore_episodes_without_files
          search_for_missing_episodes s_dict with
      | .error e => .error e
      | .ok payload => .ok (payload, s_dict :: rest)

/-- Embeds `add_series(...)`: calls `construct_series_json` (which issues the
lookup, with the raw `tvdb_id` as term) and, only if it succeeds, POSTs the
payload to /api/series.  The first component is the list of outbound
requests actually issued, in order. -/
def add_series (tvdb_id quality_profile_id : Int) (root_dir : String)
    (season_folder monitored ignore_episodes_with_files
      ignore_episodes_without_files search_for_missing_episodes : Bool)
    (lookupRes : List JVal) : List Request × Except PyErr JVal :=
  match construct_series_json tvdb_id quality_profile_id root_dir
      season_folder monitored ignore_episodes_with_files
      ignore_episodes_without_files search_for_missing_episodes lookupRes with
  | .error e => ([lookup_series (.num tvdb_id)], .error e)
  | .ok (payload, _) =>
    ([lookup_series (.num tvdb_id),
      { method := .POST, path := "/api/series", params := [],
        body := some payload }],
     .ok payload)

/-! ## Observers used by the theorems -/

/-- The value a season entry's dict would carry as `seasonUnmonitored` after
the loop body ran on it (non-dicts are returned unchanged; on those the
loop raises instead, see `setSeasonUnmonitored`). -/
def seasonUnmonitored : JVal → JVal
  | .obj fs => .obj (dictSet fs "monitored" (.bool false))
  | v => v

/-- A season entry's `"monitored"` value (meaningful only on dicts). -/
def seasonMonitored : JVal → Option JVal
  | .obj fs => dictGet fs "monitored"
  | _ => none

/-- Field `k` of the payload assembled by a successful
`construct_series_json` run. -/
def payloadField (r : Except PyErr (JVal × List JVal)) (k : String) :
    Option JVal :=
  match r with
  | .ok (.obj pfs, _) => dictGet pfs k
  | _ => none

/-- The lookup-result value as it stands after a successful
`construct_series_json` run. -/
def statePart (r : Except PyErr (JVal × List JVal)) : Option (List JVal) :=
  match r with
  | .ok (_, st) => some st
  | .error _ => none

/-- A concrete season entry (as a lookup response would carry it), used to
instantiate the universally quantified theorems. -/
def sampleSeason : JVal :=
  .obj [("seasonNumber", .num 1), ("monitored", .bool true)]

/-- A concrete first-match descriptor with one monitored season. -/
def sampleFields : List (String × JVal) :=
  [("title", .str "Breaking In"),
   ("seasons", .arr [sampleSeason]),
   ("images", .arr []),
   ("titleSlug", .str "breaking-in")]

/-! ## Dictionary lemmas -/

theorem dictGet_dictSet_same (fs : List (String × JVal)) (k : String)
    (v : JVal) : dictGet (dictSet fs k v) k = some v := by
  induction fs with
  | nil => simp [dictSet, dictGet]
  | cons p rest ih =>
    obtain ⟨k', v'⟩ := p
    by_cases h : k' = k
    · simp [dictSet, dictGet, h]
    · simp [dictSet, dictGet, h, ih]

theorem dictGet_dictSet_other (fs : List (String × JVal)) (k k' : String)
    (v : JVal) (h : k' ≠ k) :
    dictGet (dictSet fs k v) k' = dictGet fs k' := by
  have hk : k ≠ k' := fun h' => h h'.symm
  induction fs with
  | nil => simp [dictSet, dictGet, hk]
  | cons p rest ih =>
    obtain ⟨k0, v0⟩ := p
    by_cases h0 : k0 = k
    · subst h0
      simp [dictSet, dictGet, hk]
    · simp [dictSet, dictGet, h0, ih]

theorem dictSet_append_of_not_mem (fs : List (String × JVal)) (k : String)
    (v : JVal) (h : ∀ p ∈ fs, p.1 ≠ k) :
    dictSet fs k v = fs ++ [(k, v)] := by
  induction fs with
  | nil => simp [dictSet]
  | cons p rest ih =>
    obtain ⟨k0, v0⟩ := p
    have hk0 : k0 ≠ k := h (k0, v0) (by simp)
    simp [dictSet, hk0]
    exact ih fun q hq => h q (by simp [hq])

/-! ## Season-mutation lemmas -/

theorem mutateList_all_obj (ss : List JVal)
    (h : ∀ e ∈ ss, ∃ efs, e = JVal.obj efs) :
    mutateList ss = .ok (ss.map seasonUnmonitored) := by
  induction ss with
  | nil => simp [mutateList]
  | cons e es ih =>
    obtain ⟨efs, rfl⟩ := h e (by simp)
    have ih' := ih fun x hx => h x (by simp [hx])
    simp [mutateList, setSeasonUnmonitored, ih', seasonUnmonitored]

theorem mutateSeasons_true (s0 : JVal) : mutateSeasons true s0 = .ok s0 := by
  simp [mutateSeasons]

theorem mutateSeasons_false_of_seasons (fs : List (String × JVal))
    (ss : List JVal) (hget : dictGet fs "seasons" = some (.arr ss))
    (hobj : ∀ e ∈ ss, ∃ efs, e = JVal.obj efs) (hne : ss ≠ []) :
    mutateSeasons false (.obj fs) =
      .ok (.obj (dictSet fs "seasons" (.arr (ss.map seasonUnmonitored)))) := by
  simp [mutateSeasons, hget, truthyJ, List.isEmpty_eq_true, hne,
    mutateList_all_obj ss hobj]

theorem mutateSeasons_false_of_nil (fs : List (String × JVal))
    (hget : dictGet fs "seasons" = some (.arr [])) :
    mutateSeasons false (.obj fs) = .ok (.obj fs) := by
  simp [mutateSeasons, hget, truthyJ]

/-! ## Payload lemmas -/

theorem buildPayload_ok (tvdb qpid : Int) (root : String)
    (sf mon iwf iwof sfm : Bool) (fs : List (String × JVal))
    (t : String) (sv imgs slug : JVal)
    (ht : dictGet fs "title" = some (.str t))
    (hs : dictGet fs "seasons" = some sv)
    (hi : dictGet fs "images" = some imgs)
    (hl : dictGet fs "titleSlug" = some slug) :
    buildPayload tvdb qpid root sf mon iwf iwof sfm (.obj fs) =
      .ok (JVal.obj
        [("title", .str t),
         ("seasons", sv),
         ("path", .str (root ++ t)),
         ("qualityProfileId", .num qpid),
         ("seasonFolder", .bool sf),
         ("monitored", .bool mon),
         ("tvdbId", .num tvdb),
         ("images", imgs),
         ("titleSlug", slug),
         ("addOptions", JVal.obj
           [("ignoreEpisodesWithFiles", .bool iwf),
            ("ignoreEpisodesWithoutFiles", .bool iwof),
            ("searchForMissingEpisodes", .bool sfm)])]) := by
  simp [buildPayload, getItem, ht, hs, hi, hl, pyStrConcat]

theorem construct_ok_of_mutate_and_build (tvdb qpid : Int) (root : String)
    (sf mon iwf iwof sfm : Bool) (s0 sd payload : JVal) (rest : List JVal)
    (hm : mutateSeasons mon s0 = .ok sd)
    (hb : buildPayload tvdb qpid root sf mon iwf iwof sfm sd = .ok payload) :
    construct_series_json tvdb qpid root sf mon iwf iwof sfm (s0 :: rest) =
      .ok (payload, sd :: rest) := by
  simp [construct_series_json, hm, hb]

theorem construct_state_of_ok (tvdb qpid : Int) (root : String)
    (sf mon iwf iwof sfm : Bool) (s0 sd payload : JVal)
    (rest st : List JVal)
    (hm : mutateSeasons mon s0 = .ok sd)
    (h : construct_series_json tvdb qpid root sf mon iwf iwof sfm
      (s0 :: rest) = .ok (payload, st)) : st = sd :: rest := by
  simp only [construct_series_json, hm] at h
  cases hb : buildPayload tvdb qpid root sf mon iwf iwof sfm sd with
  | error e => simp [hb] at h
  | ok p =>
    simp only [hb, Except.ok.injEq, Prod.mk.injEq] at h
    exact h.2.symm

/-! ## Date lemmas -/

theorem digitVal_digitChar10 (k : Nat) :
    digitVal (digitChar10 k) = k % 10 := by
  have h : k % 10 < 10 := Nat.mod_lt _ (by omega)
  unfold digitChar10
  generalize hn : k % 10 = n at h ⊢
  interval_cases n <;> rfl

theorem isDigitChar_digitChar10 (k : Nat) :
    isDigitChar (digitChar10 k) = true := by
  have h : k % 10 < 10 := Nat.mod_lt _ (by omega)
  unfold digitChar10
  generalize hn : k % 10 = n at h
  interval_cases n <;> rfl

theorem digitChar10_ne_dash (k : Nat) : digitChar10 k ≠ '-' := by
  have h : k % 10 < 10 := Nat.mod_lt _ (by omega)
  unfold digitChar10
  generalize hn : k % 10 = n at h
  interval_cases n <;> decide

theorem splitDash_no_dash (a : List Char) (h : ∀ c ∈ a, c ≠ '-') :
    splitDash a = [a] := by
  induction a with
  | nil => rfl
  | cons c cs ih =>
    have hc : c ≠ '-' := h c (by simp)
    have ih' := ih fun x hx => h x (by simp [hx])
    simp [splitDash, hc, ih']

theorem splitDash_append (a l : List Char) (h : ∀ c ∈ a, c ≠ '-') :
    splitDash (a ++ '-' :: l) = a :: splitDash l := by
  induction a with
  | nil => simp [splitDash]
  | cons c cs ih =>
    have hc : c ≠ '-' := h c (by simp)
    have ih' := ih fun x hx => h x (by simp [hx])
    simp [splitDash, hc, ih']

theorem natOfDigits_four (y : Nat) (h : y ≤ 9999) :
    natOfDigits [digitChar10 (y / 1000), digitChar10 (y / 100),
      digitChar10 (y / 10), digitChar10 y] = y := by
  simp [natOfDigits, digitVal_digitChar10]
  omega

theorem natOfDigits_two (m : Nat) (h : m ≤ 99) :
    natOfDigits [digitChar10 (m / 10), digitChar10 m] = m := by
  simp [natOfDigits, digitVal_digitChar10]
  omega

theorem daysInMonth_le_31 (y m : Nat) : daysInMonth y m ≤ 31 := by
  unfold daysInMonth
  split_ifs <;> omega

theorem formatYMD_toList (y m d : Nat) :
    (formatYMD y m d).toList =
      [digitChar10 (y / 1000), digitChar10 (y / 100), digitChar10 (y / 10),
        digitChar10 y] ++
      '-' :: ([digitChar10 (m / 10), digitChar10 m] ++
      '-' :: [digitChar10 (d / 10), digitChar10 d]) := by
  simp [formatYMD]

theorem parseYMD_formatYMD (y m d : Nat) (h : validDate y m d) :
    parseYMD (formatYMD y m d) = some (y, m, d) := by
  obtain ⟨h1, h2, h3, h4, h5, h6⟩ := h
  have hY : ∀ c ∈ [digitChar10 (y / 1000), digitChar10 (y / 100),
      digitChar10 (y / 10), digitChar10 y], c ≠ '-' := by
    intro c hc
    simp only [List.mem_cons, List.mem_singleton] at hc
    rcases hc with rfl | rfl | rfl | rfl | h0
    · exact digitChar10_ne_dash _
    · exact digitChar10_ne_dash _
    · exact digitChar10_ne_dash _
    · exact digitChar10_ne_dash _
    · cases h0
  have hM : ∀ c ∈ [digitChar10 (m / 10), digitChar10 m], c ≠ '-' := by
    intro c hc
    simp only [List.mem_cons, List.mem_singleton] at hc
    rcases hc with rfl | rfl | h0
    · exact digitChar10_ne_dash _
    · exact digitChar10_ne_dash _
    · cases h0
  have hD : ∀ c ∈ [digitChar10 (d / 10), digitChar10 d], c ≠ '-' := by
    intro c hc
    simp only [List.mem_cons, List.mem_singleton] at hc
    rcases hc with rfl | rfl | h0
    · exact digitChar10_ne_dash _
    · exact digitChar10_ne_dash _
    · cases h0
  have hsplit : splitDash ((formatYMD y m d).toList) =
      [[digitChar10 (y / 1000), digitChar10 (y / 100), digitChar10 (y / 10),
         digitChar10 y],
       [digitChar10 (m / 10), digitChar10 m],
       [digitChar10 (d / 10), digitChar10 d]] := by
    rw [formatYMD_toList, splitDash_append _ _ hY, splitDash_append _ _ hM,
      splitDash_no_dash _ hD]
  unfold parseYMD
  rw [hsplit]
  simp only [List.length_cons, List.length_nil, List.all_cons, List.all_nil,
    isDigitChar_digitChar10, Bool.and_true, Bool.true_and, Bool.and_self]
  rw [natOfDigits_four y h2, natOfDigits_two m (by omega),
    natOfDigits_two d (by have := daysInMonth_le_31 y m; omega)]
  have hd31 : d ≤ 31 := le_trans h6 (daysInMonth_le_31 y m)
  simp [h1, h3, h4, h5, h6, hd31]

theorem dictSet_self (fs : List (String × JVal)) (k : String) (v : JVal)
    (h : dictGet fs k = some v) : dictSet fs k v = fs := by
  induction fs with
  | nil => simp [dictGet] at h
  | cons p rest ih =>
    obtain ⟨k0, v0⟩ := p
    by_cases h0 : k0 = k
    · subst h0
      simp [dictGet] at h
      simp [dictSet, h]
    · simp [dictGet, h0] at h
      simp [dictSet, h0, ih h]

theorem construct_wf_true (tvdb qpid : Int) (root : String)
    (sf iwf iwof sfm : Bool) (fs : List (String × JVal)) (rest : List JVal)
    (t : String) (sv imgs slug : JVal)
    (ht : dictGet fs "title" = some (.str t))
    (hs : dictGet fs "seasons" = some sv)
    (hi : dictGet fs "images" = some imgs)
    (hl : dictGet fs "titleSlug" = some slug) :
    construct_series_json tvdb qpid root sf true iwf iwof sfm
        (.obj fs :: rest) =
      .ok (JVal.obj
        [("title", .str t),
         ("seasons", sv),
         ("path", .str (root ++ t)),
         ("qualityProfileId", .num qpid),
         ("seasonFolder", .bool sf),
         ("monitored", .bool true),
         ("tvdbId", .num tvdb),
         ("images", imgs),
         ("titleSlug", slug),
         ("addOptions", JVal.obj
           [("ignoreEpisodesWithFiles", .bool iwf),
            ("ignoreEpisodesWithoutFiles", .bool iwof),
            ("searchForMissingEpisodes", .bool sfm)])],
        .obj fs :: rest) :=
  construct_ok_of_mutate_and_build tvdb qpid root sf true iwf iwof sfm
    _ _ _ rest (mutateSeasons_true _)
    (buildPayload_ok tvdb qpid root sf true iwf iwof sfm fs t sv imgs slug
      ht hs hi hl)

theorem construct_wf_false (tvdb qpid : Int) (root : String)
    (sf iwf iwof sfm : Bool) (fs : List (String × JVal)) (rest ss : List JVal)
    (t : String) (imgs slug : JVal)
    (ht : dictGet fs "title" = some (.str t))
    (hs : dictGet fs "seasons" = some (.arr ss))
    (hobj : ∀ e ∈ ss, ∃ efs, e = JVal.obj efs)
    (hi : dictGet fs "images" = some imgs)
    (hl : dictGet fs "titleSlug" = some slug) :
    construct_series_json tvdb qpid root sf false iwf iwof sfm
        (.obj fs :: rest) =
      .ok (JVal.obj
        [("title", .str t),
         ("seasons", .arr (ss.map seasonUnmonitored)),
         ("path", .str (root ++ t)),
         ("qualityProfileId", .num qpid),
         ("seasonFolder", .bool sf),
         ("monitored", .bool false),
         ("tvdbId", .num tvdb),
         ("images", imgs),
         ("titleSlug", slug),
         ("addOptions", JVal.obj
           [("ignoreEpisodesWithFiles", .bool iwf),
            ("ignoreEpisodesWithoutFiles", .bool iwof),
            ("searchForMissingEpisodes", .bool sfm)])],
        .obj (dictSet fs "seasons" (.arr (ss.map seasonUnmonitored)))
          :: rest) := by
  by_cases hE : ss = []
  · subst hE
    have hset : dictSet fs "seasons" (.arr ([].map seasonUnmonitored)) = fs :=
      dictSet_self fs "seasons" _ (by simpa using hs)
    rw [hset]
    exact construct_ok_of_mutate_and_build tvdb qpid root sf false iwf iwof
      sfm _ _ _ rest (mutateSeasons_false_of_nil fs hs)
      (buildPayload_ok tvdb qpid root sf false iwf iwof sfm fs t _ imgs slug
        ht (by simpa using hs) hi hl)
  · have hne : "title" ≠ "seasons" := by decide
    have hne2 : "images" ≠ "seasons" := by decide
    have hne3 : "titleSlug" ≠ "seasons" := by decide
    exact construct_ok_of_mutate_and_build tvdb qpid root sf false iwf iwof
      sfm _ _ _ rest
      (mutateSeasons_false_of_seasons fs ss hs hobj hE)
      (buildPayload_ok tvdb qpid root sf false iwf iwof sfm _ t _ imgs slug
        (by rw [dictGet_dictSet_other _ _ _ _ hne]; exact ht)
        (dictGet_dictSet_same _ _ _)
        (by rw [dictGet_dictSet_other _ _ _ _ hne2]; exact hi)
        (by rw [dictGet_dictSet_other _ _ _ _ hne3]; exact hl))

theorem formatYMD_ne_empty (y m d : Nat) : formatYMD y m d ≠ "" := by
  intro h
  have h2 := congrArg String.toList h
  rw [formatYMD_toList] at h2
  simp at h2

theorem addDateParam_none (params : List (String × JVal)) (k : String) :
    addDateParam params k none = .ok params := rfl

theorem addDateParam_malformed (params : List (String × JVal)) (k : String)
    (s : String) (hs : s ≠ "") (hp : parseYMD s = none) :
    addDateParam params k (some s) = .error PyErr.ValueError := by
  simp [addDateParam, truthyOptStr, hs, hp]

theorem addDateParam_valid (params : List (String × JVal)) (k : String)
    (y m d : Nat) (h : validDate y m d) :
    addDateParam params k (some (formatYMD y m d)) =
      .ok (dictSet params k (.str (formatYMD y m d))) := by
  simp [addDateParam, truthyOptStr, formatYMD_ne_empty,
    parseYMD_formatYMD y m d h]

/-! ## Claim theorems -/

/-- C1 (counterexample): on an empty lookup result, `construct_series_json`
fails with `IndexError` — the unguarded `res[0]` — not with the
`NotFoundError` the claim names; `add_series` issues only the lookup. -/
theorem empty_lookup_C1_counterexample :
    construct_series_json 1 2 "/tv/" true true false false false [] =
      .error PyErr.IndexError ∧
    construct_series_json 1 2 "/tv/" true true false false false [] ≠
      .error PyErr.NotFoundError ∧
    add_series 1 2 "/tv/" true true false false false [] =
      ([lookup_series (.num 1)], .error PyErr.IndexError) := by
  have h1 : construct_series_json 1 2 "/tv/" true true false false false [] =
      .error PyErr.IndexError := rfl
  refine ⟨h1, ?_, rfl⟩
  rw [h1]
  intro hcontra
  exact absurd (Except.error.inj hcontra) (by decide)

/-- C1 (amended): for every empty lookup result, `construct_series_json`
(and hence `add_series`) fails with `IndexError` (the unguarded `res[0]` on
an empty list) and issues no outbound call after the lookup: `add_series`'s
request trace is exactly the one lookup. -/
theorem empty_lookup_C1 (tvdb qpid : Int) (root : String)
    (sf mon iwf iwof sfm : Bool) :
    construct_series_json tvdb qpid root sf mon iwf iwof sfm [] =
      .error PyErr.IndexError ∧
    (add_series tvdb qpid root sf mon iwf iwof sfm []).1 =
      [lookup_series (.num tvdb)] ∧
    (add_series tvdb qpid root sf mon iwf iwof sfm []).2 =
      .error PyErr.IndexError :=
  ⟨rfl, rfl, rfl⟩

/-- C4 (counterexample): a malformed date makes `get_calendar` fail with
Python's `ValueError` (from `strptime`), not a local `ValidationError`; and
the malformed-but-falsy date `""` is silently skipped — the GET is issued
with no `start` parameter instead of failing. -/
theorem calendar_validation_C4_counterexample :
    get_calendar (some "2020-13-01") none = .error PyErr.ValueError ∧
    get_calendar (some "2020-13-01") none ≠ .error PyErr.ValidationError ∧
    get_calendar (some "") none =
      .ok { method := .GET, path := "/api/calendar", params := [],
            body := none } := by
  have h1 : get_calendar (some "2020-13-01") none =
      .error PyErr.ValueError := rfl
  refine ⟨h1, ?_, rfl⟩
  rw [h1]
  intro hcontra
  exact absurd (Except.error.inj hcontra) (by decide)

/-- C4 (amended): for every non-empty malformed (non-`YYYY-MM-DD`) start or
end date string, `get_calendar` fails with `ValueError` and no GET is
issued (an empty string is falsy and is treated as if no date had been
supplied). -/
theorem calendar_validation_C4 :
    (∀ (s : String) (e : Option String), s ≠ "" → parseYMD s = none →
      get_calendar (some s) e = .error PyErr.ValueError) ∧
    (∀ s : String, s ≠ "" → parseYMD s = none →
      get_calendar none (some s) = .error PyErr.ValueError) ∧
    (∀ (y m d : Nat) (s : String), validDate y m d → s ≠ "" →
      parseYMD s = none →
      get_calendar (some (formatYMD y m d)) (some s) =
        .error PyErr.ValueError) := by
  refine ⟨?_, ?_, ?_⟩
  · intro s e hs hp
    simp [get_calendar, addDateParam_malformed _ _ s hs hp]
  · intro s hs hp
    simp [get_calendar, addDateParam_none,
      addDateParam_malformed _ _ s hs hp]
  · intro y m d s hv hs hp
    simp [get_calendar, addDateParam_valid _ _ y m d hv,
      addDateParam_malformed _ _ s hs hp]

theorem calendar_validation_C4_witness :
    get_calendar (some "2020-02-30") none = .error PyErr.ValueError :=
  calendar_validation_C4.1 "2020-02-30" none (by decide) (by decide)

/-- C5: for every valid `YYYY-MM-DD` date string — i.e. the canonical
rendering `formatYMD y m d` of a date the `datetime` constructor accepts —
the transmitted `start`/`end` parameter is the identical string: parsing
with `%Y-%m-%d` and re-formatting is round-trip stable. -/
theorem calendar_roundtrip_C5 (y m d : Nat) (h : validDate y m d) :
    parseYMD (formatYMD y m d) = some (y, m, d) ∧
    get_calendar (some (formatYMD y m d)) none =
      .ok { method := .GET, path := "/api/calendar",
            params := [("start", .str (formatYMD y m d))], body := none } ∧
    get_calendar none (some (formatYMD y m d)) =
      .ok { method := .GET, path := "/api/calendar",
            params := [("end", .str (formatYMD y m d))], body := none } := by
  refine ⟨parseYMD_formatYMD y m d h, ?_, ?_⟩
  · simp [get_calendar, addDateParam_valid _ _ y m d h, addDateParam_none,
      dictSet]
  · simp [get_calendar, addDateParam_valid _ _ y m d h, addDateParam_none,
      dictSet]

theorem calendar_roundtrip_C5_witness :
    parseYMD (formatYMD 2024 2 29) = some (2024, 2, 29) ∧
    get_calendar (some (formatYMD 2024 2 29)) none =
      .ok { method := .GET, path := "/api/calendar",
            params := [("start", .str (formatYMD 2024 2 29))],
            body := none } ∧
    get_calendar none (some (formatYMD 2024 2 29)) =
      .ok { method := .GET, path := "/api/calendar",
            params := [("end", .str (formatYMD 2024 2 29))],
            body := none } :=
  calendar_roundtrip_C5 2024 2 29 (by decide)

/-- C7: `lookup_series_by_tvdb_id(id)` issues exactly the request
`lookup_series("tvdb:<id>")` issues — same GET, same path
/api/series/lookup, same `term` parameter. -/
theorem lookup_equiv_C7 (id_ : Int) :
    lookup_series_by_tvdb_id id_ =
      lookup_series (.str ("tvdb:" ++ toString id_)) ∧
    (lookup_series_by_tvdb_id id_).method = .GET ∧
    (lookup_series_by_tvdb_id id_).path = "/api/series/lookup" ∧
    (lookup_series_by_tvdb_id id_).params =
      [("term", .str ("tvdb:" ++ toString id_))] :=
  ⟨rfl, rfl, rfl, rfl⟩

/-- C8: `set_command(name, **kwargs)` POSTs to /api/command a body that is
the keyword bag with the command name appended under the key `"name"`
(Python's call syntax guarantees `"name"` is not among the kwargs); in
particular `set_command("RescanSeries", seriesId=3)` produces the body
`{"seriesId": 3, "name": "RescanSeries"}`. -/
theorem set_command_C8 (name : String) (kwargs : List (String × JVal))
    (h : ∀ p ∈ kwargs, p.1 ≠ "name") :
    set_command name kwargs =
      { method := .POST, path := "/api/command", params := [],
        body := some (.obj (kwargs ++ [("name", .str name)])) } ∧
    set_command "RescanSeries" [("seriesId", .num 3)] =
      { method := .POST, path := "/api/command", params := [],
        body := some (.obj [("seriesId", .num 3),
          ("name", .str "RescanSeries")]) } := by
  constructor
  · simp [set_command, dictSet_append_of_not_mem kwargs "name" (.str name) h]
  · rfl

theorem set_command_C8_witness :
    set_command "RescanSeries" [("seriesId", .num 3)] =
      { method := .POST, path := "/api/command", params := [],
        body := some (.obj [("seriesId", .num 3),
          ("name", .str "RescanSeries")]) } :=
  (set_command_C8 "RescanSeries" [("seriesId", .num 3)] (by decide)).1

/-- C9: optional-id presence is truthiness, not an is-None test: for any
falsy id (`None` or `0`), `get_command` and `get_tag` request the
collection path and `get_history` omits `episodeId`, exactly as if no id
had been supplied. -/
theorem falsy_id_C9 (id_ : Option Int) (h : truthyOptInt id_ = false) :
    get_command id_ = get_command none ∧
    (get_command id_).path = "/api/command" ∧
    get_tag id_ = get_tag none ∧
    (get_tag id_).path = "/api/tag" ∧
    ∀ (sk : String) (p ps : Int) (sd : String),
      get_history sk p ps sd id_ = get_history sk p ps sd none ∧
      (get_history sk p ps sd id_).params.map Prod.fst =
        ["sortKey", "page", "pageSize", "sortDir"] := by
  have hn : truthyOptInt none = false := rfl
  refine ⟨?_, ?_, ?_, ?_, ?_⟩
  · simp [get_command, h, hn]
  · simp [get_command, h]
  · simp [get_tag, h, hn]
  · simp [get_tag, h]
  · intro sk p ps sd
    constructor
    · simp [get_history, h, hn]
    · simp [get_history, h]

theorem falsy_id_C9_witness :
    get_command (some 0) = get_command none ∧
    (get_command (some 0)).path = "/api/command" ∧
    get_tag (some 0) = get_tag none ∧
    (get_tag (some 0)).path = "/api/tag" ∧
    get_history "date" 1 10 "desc" (some 0) =
      get_history "date" 1 10 "desc" none ∧
    (get_history "date" 1 10 "desc" (some 0)).params.map Prod.fst =
      ["sortKey", "page", "pageSize", "sortDir"] := by
  have h := falsy_id_C9 (some 0) (by decide)
  exact ⟨h.1, h.2.1, h.2.2.1, h.2.2.2.1, (h.2.2.2.2 "date" 1 10 "desc").1,
    (h.2.2.2.2 "date" 1 10 "desc").2⟩

/-- C10: `get_logs` transmits all six parameters on every call; at the
Python defaults the map carries `filterKey = None` and
`filterValue = "All"` — never omitted, unlike `get_history`'s
conditionally-included `episodeId`. -/
theorem logs_params_C10 :
    (∀ (p ps : Int) (sk sd : String) (fk : Option String) (fv : String),
      (get_logs p ps sk sd fk fv).params.map Prod.fst =
        ["page", "pageSize", "sortKey", "sortDir", "filterKey",
          "filterValue"]) ∧
    dictGet get_logs_defaults.params "filterKey" = some .null ∧
    dictGet get_logs_defaults.params "filterValue" = some (.str "All") ∧
    (∀ (sk : String) (p ps : Int) (sd : String),
      (get_history sk p ps sd none).params.map Prod.fst =
        ["sortKey", "page", "pageSize", "sortDir"]) := by
  refine ⟨fun p ps sk sd fk fv => rfl, rfl, rfl, fun sk p ps sd => rfl⟩

/-- C2: on a well-formed first match with season entries `ss`,
`construct_series_json` with `monitored=false` yields a payload whose
`"seasons"` list has the same number of entries, each with its
`"monitored"` flag forced to `false` regardless of its original value;
with `monitored=true` the season list is embedded unchanged. -/
theorem seasons_monitored_C2 (tvdb qpid : Int) (root : String)
    (sf iwf iwof sfm : Bool) (fs : List (String × JVal))
    (rest ss : List JVal) (t : String) (imgs slug : JVal)
    (ht : dictGet fs "title" = some (.str t))
    (hs : dictGet fs "seasons" = some (.arr ss))
    (hobj : ∀ e ∈ ss, ∃ efs, e = JVal.obj efs)
    (hi : dictGet fs "images" = some imgs)
    (hl : dictGet fs "titleSlug" = some slug) :
    (payloadField (construct_series_json tvdb qpid root sf false iwf iwof sfm
        (.obj fs :: rest)) "seasons" =
          some (.arr (ss.map seasonUnmonitored)) ∧
      (ss.map seasonUnmonitored).length = ss.length ∧
      ∀ e ∈ ss.map seasonUnmonitored,
        seasonMonitored e = some (.bool false)) ∧
    payloadField (construct_series_json tvdb qpid root sf true iwf iwof sfm
        (.obj fs :: rest)) "seasons" = some (.arr ss) := by
  refine ⟨⟨?_, List.length_map _ _, ?_⟩, ?_⟩
  · rw [construct_wf_false tvdb qpid root sf iwf iwof sfm fs rest ss t imgs
      slug ht hs hobj hi hl]
    simp [payloadField, dictGet]
  · intro e he
    rw [List.mem_map] at he
    obtain ⟨x, hx, rfl⟩ := he
    obtain ⟨efs, rfl⟩ := hobj x hx
    simp [seasonUnmonitored, seasonMonitored, dictGet_dictSet_same]
  · rw [construct_wf_true tvdb qpid root sf iwf iwof sfm fs rest t
      (.arr ss) imgs slug ht hs hi hl]
    simp [payloadField, dictGet]

theorem seasons_monitored_C2_witness :
    payloadField (construct_series_json 5 2 "/tv/" true false false false
        false [JVal.obj sampleFields]) "seasons" =
      some (.arr [.obj [("seasonNumber", .num 1),
        ("monitored", .bool false)]]) ∧
    payloadField (construct_series_json 5 2 "/tv/" true true false false
        false [JVal.obj sampleFields]) "seasons" =
      some (.arr [sampleSeason]) := by
  have h := seasons_monitored_C2 5 2 "/tv/" true false false false
    sampleFields [] [sampleSeason] "Breaking In" (.arr [])
    (.str "breaking-in") rfl rfl
    (fun e he => by
      rw [List.mem_singleton] at he
      subst he
      exact ⟨_, rfl⟩)
    rfl rfl
  exact ⟨h.1.1, h.2⟩

/-- C3 (counterexample): with `monitored=false`, `construct_series_json`
mutates the lookup result in place — after the call the first match's
season entry carries `monitored = false`, so the lookup-result value is
not the one obtained from the lookup. -/
theorem frame_C3_counterexample :
    statePart (construct_series_json 5 2 "/tv/" true false false false false
        [JVal.obj sampleFields]) =
      some [JVal.obj [("title", .str "Breaking In"),
        ("seasons", .arr [.obj [("seasonNumber", .num 1),
          ("monitored", .bool false)]]),
        ("images", .arr []),
        ("titleSlug", .str "breaking-in")]] ∧
    some [JVal.obj [("title", .str "Breaking In"),
        ("seasons", .arr [.obj [("seasonNumber", .num 1),
          ("monitored", .bool false)]]),
        ("images", .arr []),
        ("titleSlug", .str "breaking-in")]] ≠
      some [JVal.obj sampleFields] := by
  refine ⟨rfl, ?_⟩
  simp [sampleFields, sampleSeason]

/-- C3 (amended): with `monitored=true`, `construct_series_json` leaves the
lookup result unchanged; with `monitored=false` it returns the lookup
result with the first match's season entries' `monitored` flags forced to
`false` in place — its only modification. -/
theorem frame_C3 :
    (∀ (tvdb qpid : Int) (root : String) (sf iwf iwof sfm : Bool)
      (lookupRes : List JVal) (payload : JVal) (st : List JVal),
      construct_series_json tvdb qpid root sf true iwf iwof sfm lookupRes =
        .ok (payload, st) → st = lookupRes) ∧
    (∀ (tvdb qpid : Int) (root : String) (sf iwf iwof sfm : Bool)
      (fs : List (String × JVal)) (rest ss : List JVal) (t : String)
      (imgs slug : JVal),
      dictGet fs "title" = some (.str t) →
      dictGet fs "seasons" = some (.arr ss) →
      (∀ e ∈ ss, ∃ efs, e = JVal.obj efs) →
      dictGet fs "images" = some imgs →
      dictGet fs "titleSlug" = some slug →
      statePart (construct_series_json tvdb qpid root sf false iwf iwof sfm
          (.obj fs :: rest)) =
        some (.obj (dictSet fs "seasons" (.arr (ss.map seasonUnmonitored)))
          :: rest)) := by
  constructor
  · intro tvdb qpid root sf iwf iwof sfm lookupRes payload st h
    cases lookupRes with
    | nil => simp [construct_series_json] at h
    | cons s0 rest =>
      exact construct_state_of_ok tvdb qpid root sf true iwf iwof sfm
        s0 s0 payload rest st (mutateSeasons_true s0) h
  · intro tvdb qpid root sf iwf iwof sfm fs rest ss t imgs slug ht hs hobj
      hi hl
    rw [construct_wf_false tvdb qpid root sf iwf iwof sfm fs rest ss t imgs
      slug ht hs hobj hi hl]
    rfl

theorem frame_C3_witness :
    statePart (construct_series_json 5 2 "/tv/" true false false false false
        [JVal.obj sampleFields]) =
      some [JVal.obj (dictSet sampleFields "seasons"
        (.arr ([sampleSeason].map seasonUnmonitored)))] :=
  frame_C3.2 5 2 "/tv/" true false false false sampleFields [] [sampleSeason]
    "Breaking In" (.arr []) (.str "breaking-in") rfl rfl
    (fun e he => by
      rw [List.mem_singleton] at he
      subst he
      exact ⟨_, rfl⟩)
    rfl rfl

/-- C6: the `"path"` field of the constructed payload is exactly the
caller-given root directory concatenated with the descriptor's title — no
separator is inserted. -/
theorem path_concat_C6 (tvdb qpid : Int) (root : String)
    (sf mon iwf iwof sfm : Bool) (fs : List (String × JVal))
    (rest ss : List JVal) (t : String) (imgs slug : JVal)
    (ht : dictGet fs "title" = some (.str t))
    (hs : dictGet fs "seasons" = some (.arr ss))
    (hobj : ∀ e ∈ ss, ∃ efs, e = JVal.obj efs)
    (hi : dictGet fs "images" = some imgs)
    (hl : dictGet fs "titleSlug" = some slug) :
    payloadField (construct_series_json tvdb qpid root sf mon iwf iwof sfm
      (.obj fs :: rest)) "path" = some (.str (root ++ t)) := by
  cases mon
  · rw [construct_wf_false tvdb qpid root sf iwf iwof sfm fs rest ss t imgs
      slug ht hs hobj hi hl]
    simp [payloadField, dictGet]
  · rw [construct_wf_true tvdb qpid root sf iwf iwof sfm fs rest t
      (.arr ss) imgs slug ht hs hi hl]
    simp [payloadField, dictGet]

theorem path_concat_C6_witness :
    payloadField (construct_series_json 5 2 "/tv/" true true false false
        false [JVal.obj sampleFields]) "path" =
      some (.str "/tv/Breaking In") :=
  path_concat_C6 5 2 "/tv/" true true false false false sampleFields []
    [sampleSeason] "Breaking In" (.arr []) (.str "breaking-in") rfl rfl
    (fun e he => by
      rw [List.mem_singleton] at he
      subst he
      exact ⟨_, rfl⟩)
    rfl rfl
